import Mathlib

/-!
Verification of the Megadogs webhook server (src/unnamed/part_000 and
src/index.js): a shallow embedding of the notification de-duplication
cache, the HTTP notification handlers, the webhook-registration retry
supervisor, the rate limiter / health flag, and the inbound webhook
route, together with theorems settling the spec's claims about them.

Timestamps are modelled as `Nat` milliseconds (values of `Date.now()`).
JavaScript truthiness of numbers and strings is modelled explicitly
(`0` and `""` are falsy); time subtractions that JavaScript performs on
possibly-smaller operands are carried out in `Int`.
-/

set_option autoImplicit false

/-- The `sentMessages` map (src/unnamed/part_000 line 86): a JS `Map`
from notification key to last-sent timestamp, modelled as an
insertion-ordered association list. -/
abbrev Cache := List (String × Nat)

/-- `Map.prototype.get`: first (unique) entry with the given key. -/
def Cache.get : Cache → String → Option Nat
  | [], _ => none
  | (k, v) :: rest, key => if k = key then some v else Cache.get rest key

/-- `Map.prototype.set`: overwrite in place if present, else append. -/
def Cache.set : Cache → String → Nat → Cache
  | [], key, v => [(key, v)]
  | (k, w) :: rest, key, v =>
      if k = key then (key, v) :: rest else (k, w) :: Cache.set rest key v

/-- `Map.prototype.has`. -/
def Cache.has (c : Cache) (key : String) : Bool :=
  (Cache.get c key).isSome

/-- Whether the list of characters `needle` occurs at the head of `hay`. -/
def chStarts : List Char → List Char → Bool
  | [], _ => true
  | _ :: _, [] => false
  | a :: as, b :: bs => a == b && chStarts as bs

/-- Whether the list of characters `needle` occurs anywhere in `hay`. -/
def chContains : List Char → List Char → Bool
  | needle, [] => chStarts needle []
  | needle, b :: rest => chStarts needle (b :: rest) || chContains needle rest

/-- JavaScript `hay.includes(needle)` on strings. -/
def strIncludes (hay needle : String) : Bool :=
  chContains needle.toList hay.toList

/-- The test `error.response?.data?.description?.includes("bot was blocked")`
used by all three notification handlers (an absent description is falsy
via optional chaining). -/
def isBlockedDesc : Option String → Bool
  | none => false
  | some d => strIncludes d "bot was blocked"

/-- JavaScript `description || message` on the error fields (an empty
string is falsy). -/
def jsOrStr (d : Option String) (m : String) : String :=
  match d with
  | some s => if s = "" then m else s
  | none => m

/-- JS truthiness of an optional number field (`undefined` and `0` are falsy). -/
def truthyNum : Option Nat → Bool
  | none => false
  | some n => n != 0

/-- Outcome of the outbound `axios.post(TELEGRAM_API/sendMessage)` call:
success, or an error carrying the optional
`error.response.data.description` and the `error.message`. -/
inductive SendResult where
  | ok
  | err (description : Option String) (message : String)
  deriving DecidableEq

/-- Body of `POST /api/sendWelcomeMessage` (src/unnamed/part_000 line 136). -/
structure WelcomeReq where
  userId : Option Nat
  username : Option String
  firstName : Option String
  referrerId : Option Nat
  deriving DecidableEq

/-- The `newUser` object of the referral notification request body. -/
structure NewUser where
  id : Nat
  username : String
  deriving DecidableEq

/-- Body of `POST /api/sendReferralNotification` (line 210). -/
structure ReferralReq where
  referrerId : Option Nat
  newUser : Option NewUser
  deriving DecidableEq

/-- Body of `POST /api/sendBotMessage` (line 313). -/
structure BotMessageReq where
  telegramId : Option Nat
  message : Option String
  deriving DecidableEq

/-- JSON response of an API handler: HTTP status plus the optional body
fields the handlers of src/unnamed/part_000 emit. -/
structure ApiResponse where
  status : Nat
  success : Option Bool := none
  message : Option String := none
  error : Option String := none
  alreadySent : Option Bool := none
  botBlocked : Option Bool := none
  hasReferrer : Option Bool := none
  referrerId : Option Nat := none
  newUserId : Option Nat := none
  deriving DecidableEq

/-- Result of running a handler: either a response was sent, or the
handler raised an uncaught exception (no response reaches the caller). -/
inductive HandlerResult where
  | responded (r : ApiResponse)
  | raised (e : String)
  deriving DecidableEq

/-- Dedup window for welcome messages: `24 * 60 * 60 * 1000` (line 145). -/
def WELCOME_WINDOW_MS : Nat := 24 * 60 * 60 * 1000

/-- Retention window of the periodic sweep: 7 days (line 436). -/
def RETENTION_MS : Nat := 7 * 24 * 60 * 60 * 1000

/-- Key of a welcome record: `welcome_<userId>` (line 143). -/
def welcomeKey (userId : Nat) : String := "welcome_" ++ toString userId

/-- Key of a referral record: `referral_<referrerId>_<newUserId>` (line 217). -/
def referralKey (referrerId newUserId : Nat) : String :=
  "referral_" ++ toString referrerId ++ "_" ++ toString newUserId

/-- The welcome handler's dedup test (lines 144-145):
`lastSent && (Date.now() - lastSent) < window`. A stored timestamp of 0
would be falsy in JS; the subtraction is carried out in `Int`. -/
def dedupHit (lastSent : Option Nat) (now window : Nat) : Bool :=
  match lastSent with
  | none => false
  | some ts => ts != 0 && decide ((now : Int) - (ts : Int) < (window : Int))

/-- The cache write performed on a successful send (line 176):
`sentMessages.set(messageKey, Date.now())`. -/
def markSent (c : Cache) (key : String) (t : Nat) : Cache :=
  Cache.set c key t

/-- The dedup check as the spec names it: true when a send may proceed,
i.e. the negation of the inline `lastSent && now - lastSent < window`
test of lines 144-145. -/
def shouldSend (c : Cache) (key : String) (window now : Nat) : Bool :=
  !(dedupHit (Cache.get c key) now window)

/-- Handler of `POST /api/sendWelcomeMessage` (src/unnamed/part_000 lines
134-205). Inputs: current time, cache state, request body, and the
outcome of the outbound send. Output: the handler result, the cache
state afterwards, and whether an outbound send was attempted. -/
def sendWelcomeMessage (now : Nat) (c : Cache) (req : WelcomeReq)
    (net : SendResult) : HandlerResult × Cache × Bool :=
  match req.userId with
  | none =>
      (.responded { status := 400, error := some "User ID is required" }, c, false)
  | some userId =>
      if userId = 0 then
        (.responded { status := 400, error := some "User ID is required" }, c, false)
      else
        let messageKey := welcomeKey userId
        if dedupHit (Cache.get c messageKey) now WELCOME_WINDOW_MS then
          (.responded { status := 200, success := some true,
                        message := some "Welcome message already sent recently",
                        alreadySent := some true }, c, false)
        else
          match net with
          | .ok =>
              (.responded { status := 200, success := some true,
                            message := some "Welcome message sent successfully",
                            hasReferrer := some (truthyNum req.referrerId) },
               Cache.set c messageKey now, true)
          | .err d em =>
              if isBlockedDesc d then
                (.responded { status := 200, success := some true,
                              message := some "User blocked bot",
                              botBlocked := some true }, c, true)
              else
                (.responded { status := 200, success := some true,
                              message := some "Welcome message queued",
                              error := some (jsOrStr d em) }, c, true)

/-- Handler of `POST /api/sendReferralNotification` (lines 208-276). The
dedup test is `sentMessages.has(notificationKey)` (line 218): existence
only, no timestamp comparison. In the catch block the blocked branch
evaluates a template literal mentioning `referrerId` (line 262), a name
`const`-declared inside the try block and therefore not in scope there:
that path raises a `ReferenceError` and no response is sent. -/
def sendReferralNotification (now : Nat) (c : Cache) (req : ReferralReq)
    (net : SendResult) : HandlerResult × Cache × Bool :=
  match req.referrerId, req.newUser with
  | some referrerId, some newUser =>
      if referrerId = 0 then
        (.responded { status := 400,
                      error := some "Referrer ID and new user data are required" },
         c, false)
      else
        let notificationKey := referralKey referrerId newUser.id
        if Cache.has c notificationKey then
          (.responded { status := 200, success := some true,
                        message := some "Referral notification already sent",
                        alreadySent := some true }, c, false)
        else
          match net with
          | .ok =>
              (.responded { status := 200, success := some true,
                            message := some "Referral notification sent successfully",
                            referrerId := some referrerId,
                            newUserId := some newUser.id },
               Cache.set c notificationKey now, true)
          | .err d em =>
              if isBlockedDesc d then
                (.raised "ReferenceError: referrerId is not defined", c, true)
              else
                (.responded { status := 200, success := some true,
                              message := some "Referral notification queued",
                              error := some (jsOrStr d em) }, c, true)
  | _, _ =>
      (.responded { status := 400,
                    error := some "Referrer ID and new user data are required" },
       c, false)

/-- Handler of `POST /api/sendBotMessage` (lines 311-341). As in the
referral handler, the blocked branch of the catch block references
`telegramId` (line 332), which is scoped to the try block: that path
raises a `ReferenceError` instead of responding. This endpoint never
touches the cache. -/
def sendBotMessage (req : BotMessageReq) (net : SendResult) :
    HandlerResult × Bool :=
  match req.telegramId, req.message with
  | some telegramId, some msg =>
      if telegramId = 0 || msg = "" then
        (.responded { status := 400,
                      error := some "Telegram ID and message are required" }, false)
      else
        match net with
        | .ok =>
            (.responded { status := 200, success := some true,
                          message := some "Message sent successfully" }, true)
        | .err d _ =>
            if isBlockedDesc d then
              (.raised "ReferenceError: telegramId is not defined", true)
            else
              (.responded { status := 500,
                            error := some "Failed to send message" }, true)
  | _, _ =>
      (.responded { status := 400,
                    error := some "Telegram ID and message are required" }, false)

/-- Handler of `DELETE /api/clearMessageCache` (lines 344-352):
`sentMessages.clear()` and a 200 response reporting the prior size. -/
def clearMessageCache (c : Cache) : Cache × ApiResponse :=
  ([], { status := 200, success := some true,
         message := some ("Message cache cleared (" ++ toString c.length
                          ++ " entries removed)") })

/-- Response of `GET /api/messageCacheStats` (lines 355-365). -/
structure CacheStats where
  status : Nat
  success : Bool
  totalEntries : Nat
  entries : List (String × Nat)
  deriving DecidableEq

/-- Handler of `GET /api/messageCacheStats`: total entry count and the
first 10 entries (`Array.from(sentMessages.entries()).slice(0, 10)`). -/
def messageCacheStats (c : Cache) : CacheStats :=
  { status := 200, success := true, totalEntries := c.length,
    entries := c.take 10 }

/-- Body of the periodic cache sweep (lines 434-449): iterate over the
entries in insertion order, deleting those with `timestamp < cutoff`
and counting the deletions. -/
def sweepLoop (cutoff : Nat) : List (String × Nat) → List (String × Nat) × Nat
  | [] => ([], 0)
  | (k, ts) :: rest =>
      let r := sweepLoop cutoff rest
      if ts < cutoff then (r.1, r.2 + 1) else ((k, ts) :: r.1, r.2)

/-- The periodic sweep with retention window `retention`: the cutoff is
`now - retention` (in JS a negative cutoff removes nothing; `Nat`
truncation to 0 behaves identically since timestamps are nonnegative). -/
def sweep (now retention : Nat) (c : Cache) : Cache × Nat :=
  sweepLoop (now - retention) c

/-- Default retry delay for webhook registration (line 17): 5000 ms. -/
def RETRY_TIMEOUT_MS : Nat := 5000

/-- Default maximum retry count for webhook registration (line 18). -/
def MAX_RETRIES_DEFAULT : Nat := 5

/-- The webhook-registration supervisor `initWebhook` (lines 64-80),
run against a list of attempt outcomes (`true` = the `setWebhook` call
succeeded). Arguments after `maxRetries`: the current `retries`
counter, the current health flag, and the remaining outcomes. Returns
(number of attempts started, final health flag, delays of the scheduled
retries). An attempt whose outcome is not in the list has started but
not completed: it counts as started and leaves the flag unchanged.
On failure the flag is set to false and, when `retries < maxRetries`, a
retry is scheduled `RETRY_TIMEOUT_MS` later; otherwise the loop stops. -/
def initWebhook (maxRetries : Nat) : Nat → Bool → List Bool → Nat × Bool × List Nat
  | _, flag, [] => (1, flag, [])
  | _, _, true :: _ => (1, true, [])
  | retries, _, false :: rest =>
      if retries < maxRetries then
        ((initWebhook maxRetries (retries + 1) false rest).1 + 1,
         (initWebhook maxRetries (retries + 1) false rest).2.1,
         RETRY_TIMEOUT_MS :: (initWebhook maxRetries (retries + 1) false rest).2.2)
      else
        (1, false, [])

/-- The process-wide health flag (`isHealthy`, line 11). -/
structure Health where
  isHealthy : Bool
  deriving DecidableEq

/-- The rate limiter configuration (lines 28-38): fixed 15-minute
window, max 100 requests (src/index.js uses max 5). -/
structure RateLimitConfig where
  windowMs : Nat
  max : Nat
  deriving DecidableEq

/-- The limiter instance of src/unnamed/part_000 lines 28-33. -/
def limiterConfig : RateLimitConfig := { windowMs := 15 * 60 * 1000, max := 100 }

/-- The limiter's custom `handler` (lines 34-37): mark the service
unhealthy and answer 429. -/
def rateLimitHandler (_h : Health) : Health × Nat :=
  ({ isHealthy := false }, 429)

/-- The limiter middleware: when the request count in the current fixed
window exceeds `cfg.max`, the library invokes the configured handler;
otherwise the request passes through (`none`). -/
def limiter (cfg : RateLimitConfig) (hitsInWindow : Nat) (h : Health) :
    Health × Option Nat :=
  if cfg.max < hitsInWindow then
    let r := rateLimitHandler h
    (r.1, some r.2)
  else
    (h, none)

/-- Handler of `GET /health` (lines 56-61): 200 when healthy, 503 when not. -/
def healthEndpoint (h : Health) : Nat :=
  if h.isHealthy then 200 else 503

/-- Synchronous outcome of `bot.handleUpdate(req.body)` as observed by
the webhook route: the call either returns (it is not awaited, so any
asynchronous work is invisible to the route) or throws synchronously. -/
inductive Dispatch where
  | ok
  | throws
  deriving DecidableEq

/-- State of the `setTimeout` timer armed by the webhook route of
src/index.js lines 122-136. -/
structure TimerState where
  armed : Bool
  delayMs : Nat
  deriving DecidableEq

/-- Synchronous body of `app.post(URI)` (src/index.js lines 122-136):
arm the 504 timer for 10000 ms, dispatch inside try/catch answering 200
or 500, then clear the timer in the `finally` block. Returns the status
written during this synchronous phase and the timer state left behind. -/
def webhookSyncPhase (d : Dispatch) : Nat × TimerState :=
  let timer : TimerState := { armed := true, delayMs := 10000 }
  let status : Nat :=
    match d with
    | .ok => 200
    | .throws => 500
  let timer : TimerState := { timer with armed := false }
  (status, timer)

/-- Whether the timer callback fires once the event loop resumes after
the synchronous phase, given how long the (unawaited) update processing
takes: only a still-armed timer whose delay has elapsed fires. -/
def timerFires (t : TimerState) (processingMs : Nat) : Bool :=
  t.armed && decide (t.delayMs ≤ processingMs)

/-- All statuses written for one inbound webhook request, in order.
Node.js runs the handler body to completion before any timer callback
can run, so the synchronous status always comes first; a 504 follows
only if the timer survived the synchronous phase and fires. -/
def webhookResponses (d : Dispatch) (processingMs : Nat) : List Nat :=
  let r := webhookSyncPhase d
  r.1 :: (if timerFires r.2 processingMs then [504] else [])

/-- Status the inbound caller receives: the first status written. -/
def webhookResponse (d : Dispatch) (processingMs : Nat) : Nat :=
  (webhookResponses d processingMs).headD 0

/-! ### Helper lemmas -/

theorem Cache.get_set_self (c : Cache) (key : String) (v : Nat) :
    Cache.get (Cache.set c key v) key = some v := by
  induction c with
  | nil => simp [Cache.set, Cache.get]
  | cons hd tl ih =>
      obtain ⟨k, w⟩ := hd
      by_cases h : k = key
      · simp [Cache.set, Cache.get, h]
      · simp [Cache.set, Cache.get, h, ih]

theorem dedupHit_mono (ls : Option Nat) (now now' window : Nat)
    (hle : now ≤ now') (h : dedupHit ls now window = false) :
    dedupHit ls now' window = false := by
  cases ls with
  | none => simp [dedupHit]
  | some ts =>
      simp only [dedupHit, Bool.and_eq_false_iff] at h ⊢
      rcases h with h | h
      · exact Or.inl h
      · simp only [decide_eq_false_iff_not] at h ⊢
        omega

theorem sweepLoop_eq_filter (cutoff : Nat) (c : List (String × Nat)) :
    sweepLoop cutoff c
      = (c.filter (fun kv => !decide (kv.2 < cutoff)),
         (c.filter (fun kv => decide (kv.2 < cutoff))).length) := by
  induction c with
  | nil => simp [sweepLoop]
  | cons hd tl ih =>
      obtain ⟨k, ts⟩ := hd
      by_cases h : ts < cutoff
      · simp [sweepLoop, ih, List.filter, h]
      · simp [sweepLoop, ih, List.filter, h]

theorem initWebhook_cons_fail (maxR r : Nat) (flag : Bool) (rest : List Bool)
    (h : r < maxR) :
    initWebhook maxR r flag (false :: rest)
      = ((initWebhook maxR (r + 1) false rest).1 + 1,
         (initWebhook maxR (r + 1) false rest).2.1,
         RETRY_TIMEOUT_MS :: (initWebhook maxR (r + 1) false rest).2.2) := by
  conv_lhs => rw [initWebhook]
  rw [if_pos h]

theorem initWebhook_cons_fail_stop (maxR r : Nat) (flag : Bool) (rest : List Bool)
    (h : ¬ r < maxR) :
    initWebhook maxR r flag (false :: rest) = (1, false, []) := by
  conv_lhs => rw [initWebhook]
  rw [if_neg h]

theorem initWebhook_fail_aux (maxR : Nat) :
    ∀ m r flag, r + m < maxR →
      initWebhook maxR r flag (List.replicate (m + 1) false)
        = (m + 2, false, List.replicate (m + 1) RETRY_TIMEOUT_MS) := by
  intro m
  induction m with
  | zero =>
      intro r flag h
      rw [List.replicate_one, initWebhook_cons_fail maxR r flag [] (by omega)]
      simp [initWebhook]
  | succ n ih =>
      intro r flag h
      rw [List.replicate_succ,
        initWebhook_cons_fail maxR r flag (List.replicate (n + 1) false) (by omega),
        ih (r + 1) false (by omega)]
      simp [List.replicate_succ]

theorem initWebhook_success_aux (maxR : Nat) :
    ∀ k r flag, r + k ≤ maxR →
      initWebhook maxR r flag (List.replicate k false ++ [true])
        = (k + 1, true, List.replicate k RETRY_TIMEOUT_MS) := by
  intro k
  induction k with
  | zero =>
      intro r flag _
      simp [initWebhook]
  | succ n ih =>
      intro r flag h
      rw [List.replicate_succ, List.cons_append,
        initWebhook_cons_fail maxR r flag (List.replicate n false ++ [true]) (by omega),
        ih (r + 1) false (by omega)]
      simp [List.replicate_succ]

theorem initWebhook_exhaust_aux (maxR : Nat) :
    ∀ m r flag rest, r + m = maxR →
      initWebhook maxR r flag (List.replicate (m + 1) false ++ rest)
        = (m + 1, false, List.replicate m RETRY_TIMEOUT_MS) := by
  intro m
  induction m with
  | zero =>
      intro r flag rest h
      rw [List.replicate_one, List.cons_append, List.nil_append,
        initWebhook_cons_fail_stop maxR r flag rest (by omega)]
      rfl
  | succ n ih =>
      intro r flag rest h
      rw [List.replicate_succ, List.cons_append,
        initWebhook_cons_fail maxR r flag (List.replicate (n + 1) false ++ rest) (by omega),
        ih (r + 1) false rest (by omega)]
      simp [List.replicate_succ]

/-! ### Claims -/

/-- Claim C3: for every key K, window W and (positive, i.e. realizable
as a `Date.now()` value) timestamp t, after `markSent K t` the dedup
check `shouldSend K W` answers false at every query time in
`[t, t + W)` and true at every query time at or after `t + W`; and
`shouldSend` answers true whenever no record exists for K. -/
theorem markSent_shouldSend_window (c : Cache) (K : String) (W t q : Nat)
    (ht : 0 < t) :
    (t ≤ q → q < t + W → shouldSend (markSent c K t) K W q = false) ∧
    (t + W ≤ q → shouldSend (markSent c K t) K W q = true) ∧
    (Cache.get c K = none → shouldSend c K W q = true) := by
  have hg : Cache.get (Cache.set c K t) K = some t := Cache.get_set_self c K t
  refine ⟨?_, ?_, ?_⟩
  · intro _ h2
    simp only [shouldSend, markSent, hg, dedupHit, Bool.not_eq_false',
      Bool.and_eq_true, bne_iff_ne, ne_eq, decide_eq_true_eq]
    constructor
    · omega
    · omega
  · intro h1
    simp only [shouldSend, markSent, hg, dedupHit, Bool.not_eq_true',
      Bool.and_eq_false_iff, decide_eq_false_iff_not]
    right
    omega
  · intro hnone
    simp [shouldSend, hnone, dedupHit]

/-- Witness for C3 at K = "welcome_1", W = 100, t = 5, with query times
50 (inside the window), 105 (at the window's end) and a key with no
record. -/
theorem markSent_shouldSend_window_witness :
    shouldSend (markSent [] "welcome_1" 5) "welcome_1" 100 50 = false ∧
    shouldSend (markSent [] "welcome_1" 5) "welcome_1" 100 105 = true ∧
    shouldSend [] "welcome_1" 100 7 = true :=
  ⟨(markSent_shouldSend_window [] "welcome_1" 100 5 50 (by decide)).1
      (by decide) (by decide),
   (markSent_shouldSend_window [] "welcome_1" 100 5 105 (by decide)).2.1
      (by decide),
   (markSent_shouldSend_window [] "welcome_1" 100 5 7 (by decide)).2.2 rfl⟩

/-- Claim C6: for every cache state and retention window R, the
periodic sweep keeps exactly the records with timestamp at least
`now - R` — unchanged, in order, count preserved — and reports as its
removal count the number of records with timestamp strictly below
`now - R`. -/
theorem sweep_removes_exactly_old (now R : Nat) (c : Cache) :
    (sweep now R c).1 = c.filter (fun kv => !decide (kv.2 < now - R)) ∧
    (sweep now R c).2 = (c.filter (fun kv => decide (kv.2 < now - R))).length ∧
    (sweep now R c).1.length
      = (c.filter (fun kv => !decide (kv.2 < now - R))).length := by
  have h := sweepLoop_eq_filter (now - R) c
  refine ⟨?_, ?_, ?_⟩
  · rw [sweep, h]
  · rw [sweep, h]
  · rw [sweep, h]

/-- Claim C4: the registration supervisor makes a bounded number of
attempts. Given N consecutive failures (N at least one so that a
failure actually occurred) with N < MAX_RETRIES, exactly N + 1 attempts
occur — the (N+1)-th being the retry the N-th failure schedules — with
each retry scheduled RETRY_TIMEOUT after its failure, and the health
flag ends false. Given success on (zero-based) attempt K with
K ≤ MAX_RETRIES, exactly K + 1 attempts occur and the flag ends true.
Once a failure occurs with the retry counter at MAX_RETRIES, no further
attempt is scheduled — any further outcomes `rest` are never consumed —
and the flag stays false. -/
theorem initWebhook_bounded_retries (maxR N K : Nat) (rest : List Bool)
    (flag : Bool) (hN1 : 1 ≤ N) (hN : N < maxR) (hK : K ≤ maxR) :
    initWebhook maxR 0 flag (List.replicate N false)
      = (N + 1, false, List.replicate N RETRY_TIMEOUT_MS) ∧
    initWebhook maxR 0 flag (List.replicate K false ++ [true])
      = (K + 1, true, List.replicate K RETRY_TIMEOUT_MS) ∧
    initWebhook maxR 0 flag (List.replicate (maxR + 1) false ++ rest)
      = (maxR + 1, false, List.replicate maxR RETRY_TIMEOUT_MS) := by
  refine ⟨?_, ?_, ?_⟩
  · obtain ⟨m, rfl⟩ := Nat.exists_eq_add_of_le hN1
    have h := initWebhook_fail_aux maxR m 0 flag (by omega)
    rw [show 1 + m = m + 1 by omega]
    rw [h]
  · exact initWebhook_success_aux maxR K 0 flag (by omega)
  · exact initWebhook_exhaust_aux maxR maxR 0 flag rest (by omega)

/-- Witness for C4 with MAX_RETRIES = 5: two failures give three
attempts and an unhealthy flag; success on attempt 3 gives four
attempts and a healthy flag; six straight failures stop, ignoring the
remaining outcomes. -/
theorem initWebhook_bounded_retries_witness :
    initWebhook 5 0 true (List.replicate 2 false)
      = (3, false, List.replicate 2 RETRY_TIMEOUT_MS) ∧
    initWebhook 5 0 true (List.replicate 3 false ++ [true])
      = (4, true, List.replicate 3 RETRY_TIMEOUT_MS) ∧
    initWebhook 5 0 true (List.replicate 6 false ++ [true, true])
      = (6, false, List.replicate 5 RETRY_TIMEOUT_MS) :=
  initWebhook_bounded_retries 5 2 3 [true, true] true (by decide) (by decide)
    (by decide)

/-- Claim C9: clearing the message cache and then asking for stats
reports zero total entries and an empty sample, for every prior cache
state. -/
theorem clear_then_stats_zero (c : Cache) :
    messageCacheStats (clearMessageCache c).1
      = { status := 200, success := true, totalEntries := 0, entries := [] } := by
  rfl

/-- Claim C1 counterexample: a referral record written at time 1000 and
queried 8 days later (691201000 = 1000 + 8 * 24 * 60 * 60 * 1000, past
the 24-hour dedup window and even past the 7-day retention window)
still suppresses the repeat request: the handler answers
`alreadySent`, attempts no send, and does not refresh the timestamp —
so a referral record does not suppress for "exactly the configured
window". -/
theorem referral_suppressed_past_window :
    sendReferralNotification 691201000 (Cache.set [] (referralKey 7 9) 1000)
      { referrerId := some 7, newUser := some { id := 9, username := "bob" } }
      SendResult.ok
    = (HandlerResult.responded { status := 200, success := some true,
                                 message := some "Referral notification already sent",
                                 alreadySent := some true },
       Cache.set [] (referralKey 7 9) 1000, false) := by
  decide

/-- Claim C1 (amended): a welcome record for key K written at time t
suppresses duplicates for exactly the 24-hour window — a repeat within
`[t, t + 24h)` is answered `alreadySent` with no send and no cache
change, and a repeat at or after `t + 24h` whose send succeeds performs
a new send and refreshes the record's timestamp. A referral record,
by contrast, suppresses a repeat for as long as the record exists,
whatever its age, with no send and no timestamp refresh. -/
theorem dedup_welcome_windowed_referral_unwindowed (c c2 : Cache)
    (uid t q rid : Nat) (ts : Nat) (un fn : Option String) (rf : Option Nat)
    (nu : NewUser) (huid : uid ≠ 0) (ht : 0 < t) (hrid : rid ≠ 0)
    (hget : Cache.get c (welcomeKey uid) = some t)
    (hget2 : Cache.get c2 (referralKey rid nu.id) = some ts) :
    (t ≤ q → q < t + WELCOME_WINDOW_MS →
      sendWelcomeMessage q c ⟨some uid, un, fn, rf⟩ SendResult.ok
        = (.responded { status := 200, success := some true,
                        message := some "Welcome message already sent recently",
                        alreadySent := some true }, c, false)) ∧
    (t + WELCOME_WINDOW_MS ≤ q →
      sendWelcomeMessage q c ⟨some uid, un, fn, rf⟩ SendResult.ok
        = (.responded { status := 200, success := some true,
                        message := some "Welcome message sent successfully",
                        hasReferrer := some (truthyNum rf) },
           Cache.set c (welcomeKey uid) q, true) ∧
      Cache.get (sendWelcomeMessage q c ⟨some uid, un, fn, rf⟩ SendResult.ok).2.1
          (welcomeKey uid) = some q) ∧
    sendReferralNotification q c2 ⟨some rid, some nu⟩ SendResult.ok
      = (.responded { status := 200, success := some true,
                      message := some "Referral notification already sent",
                      alreadySent := some true }, c2, false) := by
  refine ⟨?_, ?_, ?_⟩
  · intro h1 h2
    have hhit : dedupHit (Cache.get c (welcomeKey uid)) q WELCOME_WINDOW_MS = true := by
      rw [hget]
      simp only [dedupHit, Bool.and_eq_true, bne_iff_ne, ne_eq, decide_eq_true_eq]
      exact ⟨by omega, by omega⟩
    simp [sendWelcomeMessage, huid, hhit]
  · intro h1
    have hmiss : dedupHit (Cache.get c (welcomeKey uid)) q WELCOME_WINDOW_MS = false := by
      rw [hget]
      simp only [dedupHit, Bool.and_eq_false_iff, decide_eq_false_iff_not]
      right
      omega
    constructor
    · simp [sendWelcomeMessage, huid, hmiss]
    · simp [sendWelcomeMessage, huid, hmiss, Cache.get_set_self]
  · have hhas : Cache.has c2 (referralKey rid nu.id) = true := by
      simp [Cache.has, hget2]
    simp [sendReferralNotification, hrid, hhas]

/-- Witness for C1 (amended): welcome key of user 4 recorded at t = 50,
suppressed at q = 60, refreshed at q = 86400050 = 50 + 24h; referral
record for referrer 7 / new user 9, written at 1000 and still
suppressing at 691201000 (8 days later). -/
theorem dedup_welcome_windowed_referral_unwindowed_witness :
    sendWelcomeMessage 60 [(welcomeKey 4, 50)] ⟨some 4, none, none, none⟩
        SendResult.ok
      = (.responded { status := 200, success := some true,
                      message := some "Welcome message already sent recently",
                      alreadySent := some true }, [(welcomeKey 4, 50)], false) ∧
    Cache.get (sendWelcomeMessage 86400050 [(welcomeKey 4, 50)]
        ⟨some 4, none, none, none⟩ SendResult.ok).2.1 (welcomeKey 4)
      = some 86400050 ∧
    sendReferralNotification 691201000 [(referralKey 7 9, 1000)]
        ⟨some 7, some ⟨9, "bob"⟩⟩ SendResult.ok
      = (.responded { status := 200, success := some true,
                      message := some "Referral notification already sent",
                      alreadySent := some true }, [(referralKey 7 9, 1000)], false) :=
  ⟨(dedup_welcome_windowed_referral_unwindowed [(welcomeKey 4, 50)]
      [(referralKey 7 9, 1000)] 4 50 60 7 1000 none none none ⟨9, "bob"⟩
      (by decide) (by decide) (by decide) (by decide) (by decide)).1
      (by decide) (by decide),
   ((dedup_welcome_windowed_referral_unwindowed [(welcomeKey 4, 50)]
      [(referralKey 7 9, 1000)] 4 50 86400050 7 1000 none none none ⟨9, "bob"⟩
      (by decide) (by decide) (by decide) (by decide) (by decide)).2.1
      (by decide)).2,
   (dedup_welcome_windowed_referral_unwindowed [(welcomeKey 4, 50)]
      [(referralKey 7 9, 1000)] 4 50 60 7 1000 none none none ⟨9, "bob"⟩
      (by decide) (by decide) (by decide) (by decide) (by decide)).2.2⟩

/-- Claim C2 (code bug): on a send failing with a "bot was blocked by
the user" error, the welcome handler does answer 200 with
`botBlocked: true`; but the referral and direct-message handlers
crash instead of answering — their catch blocks evaluate a template
literal naming `referrerId` resp. `telegramId`, names `const`-declared
inside the try block and out of scope in the catch block, raising a
`ReferenceError` before any response is sent. -/
theorem blocked_error_paths :
    (sendWelcomeMessage 1000 [] ⟨some 5, none, none, none⟩
        (SendResult.err (some "Forbidden: bot was blocked by the user")
          "Request failed")).1
      = HandlerResult.responded { status := 200, success := some true,
                                  message := some "User blocked bot",
                                  botBlocked := some true } ∧
    (sendReferralNotification 1000 [] ⟨some 7, some ⟨9, "bob"⟩⟩
        (SendResult.err (some "Forbidden: bot was blocked by the user")
          "Request failed")).1
      = HandlerResult.raised "ReferenceError: referrerId is not defined" ∧
    (sendBotMessage ⟨some 7, some "hi"⟩
        (SendResult.err (some "Forbidden: bot was blocked by the user")
          "Request failed")).1
      = HandlerResult.raised "ReferenceError: telegramId is not defined" := by
  decide

/-- Claim C5 counterexample: an update whose processing takes 20000 ms,
well beyond the 10000 ms timeout, is still answered 200 — the 504 is
never written, because `bot.handleUpdate` is not awaited and the
`finally` block clears the timer in the same synchronous tick in which
it was armed. -/
theorem webhook_timeout_never_fires :
    10000 < 20000 ∧ webhookResponse Dispatch.ok 20000 = 200 ∧
    webhookResponses Dispatch.ok 20000 = [200] := by
  decide

/-- Claim C5 (amended): the webhook route answers 200 on successful
dispatch and 500 when the dispatch throws; the 504 timeout status is
never sent to the caller, whatever the processing duration. -/
theorem webhook_status_no_timeout (d : Dispatch) (p : Nat) :
    webhookResponse d p = (match d with | .ok => 200 | .throws => 500) ∧
    ¬ 504 ∈ webhookResponses d p := by
  cases d <;>
    simp [webhookResponse, webhookResponses, webhookSyncPhase, timerFires]

/-- Claim C7: a referral-notification request lacking `referrerId` or
lacking `newUser` is answered 400 with an error message, no send is
attempted, and the cache is left unchanged. -/
theorem referral_missing_field_400 (now : Nat) (c : Cache) (req : ReferralReq)
    (net : SendResult) (h : req.referrerId = none ∨ req.newUser = none) :
    sendReferralNotification now c req net
      = (.responded { status := 400,
                      error := some "Referrer ID and new user data are required" },
         c, false) := by
  obtain ⟨rid, nu⟩ := req
  rcases h with h | h <;> simp only at h <;> subst h
  · cases nu <;> rfl
  · cases rid <;> rfl

/-- Witness for C7: a request with `newUser` present but `referrerId`
absent is answered 400 and the (nonempty) cache is untouched. -/
theorem referral_missing_field_400_witness :
    sendReferralNotification 5 [("x", 1)] ⟨none, some ⟨9, "bob"⟩⟩ SendResult.ok
      = (.responded { status := 400,
                      error := some "Referrer ID and new user data are required" },
         [("x", 1)], false) :=
  referral_missing_field_400 5 [("x", 1)] ⟨none, some ⟨9, "bob"⟩⟩ SendResult.ok
    (Or.inl rfl)

/-- Claim C8: when the request count in the limiter's fixed window
exceeds the configured maximum, the server answers 429 and sets the
health flag to false, so a subsequent `GET /health` on the resulting
state reports 503. -/
theorem rate_limit_429_unhealthy (hits : Nat) (h : Health)
    (hex : limiterConfig.max < hits) :
    limiter limiterConfig hits h = ({ isHealthy := false }, some 429) ∧
    healthEndpoint (limiter limiterConfig hits h).1 = 503 := by
  constructor
  · simp [limiter, hex, rateLimitHandler]
  · simp [limiter, hex, rateLimitHandler, healthEndpoint]

/-- Witness for C8 at 101 requests (limit 100), starting healthy. -/
theorem rate_limit_429_unhealthy_witness :
    limiter limiterConfig 101 ⟨true⟩ = ({ isHealthy := false }, some 429) ∧
    healthEndpoint (limiter limiterConfig 101 ⟨true⟩).1 = 503 :=
  rate_limit_429_unhealthy 101 ⟨true⟩ (by decide)

/-- Claim C10: the cache write happens only after a successful send: on
every failing send — blocked recipient or any other upstream error —
the welcome and referral handlers leave the cache unchanged; and if
such a failed request had reached the send (was not suppressed), an
identical request at any later time still reaches the send — the
failed attempt suppresses nothing. -/
theorem no_cache_write_on_failed_send (now now2 : Nat) (c : Cache)
    (wreq : WelcomeReq) (rreq : ReferralReq) (d : Option String) (em : String)
    (net2 : SendResult) (hle : now ≤ now2) :
    (sendWelcomeMessage now c wreq (SendResult.err d em)).2.1 = c ∧
    (sendReferralNotification now c rreq (SendResult.err d em)).2.1 = c ∧
    ((sendWelcomeMessage now c wreq (SendResult.err d em)).2.2 = true →
      (sendWelcomeMessage now2 c wreq net2).2.2 = true) ∧
    ((sendReferralNotification now c rreq (SendResult.err d em)).2.2 = true →
      (sendReferralNotification now2 c rreq net2).2.2 = true) := by
  obtain ⟨ou, un, fn, rf⟩ := wreq
  obtain ⟨orid, onu⟩ := rreq
  refine ⟨?_, ?_, ?_, ?_⟩
  · cases ou with
    | none => rfl
    | some uid =>
        by_cases h0 : uid = 0
        · simp [sendWelcomeMessage, h0]
        · cases hd : dedupHit (Cache.get c (welcomeKey uid)) now WELCOME_WINDOW_MS
          · by_cases hb : isBlockedDesc d = true
            · simp [sendWelcomeMessage, h0, hd, hb]
            · simp [sendWelcomeMessage, h0, hd, hb]
          · simp [sendWelcomeMessage, h0, hd]
  · cases orid with
    | none => cases onu <;> rfl
    | some rid =>
        cases onu with
        | none => rfl
        | some nu =>
            by_cases h0 : rid = 0
            · simp [sendReferralNotification, h0]
            · cases hh : Cache.has c (referralKey rid nu.id)
              · by_cases hb : isBlockedDesc d = true
                · simp [sendReferralNotification, h0, hh, hb]
                · simp [sendReferralNotification, h0, hh, hb]
              · simp [sendReferralNotification, h0, hh]
  · intro hsent
    cases ou with
    | none => simp [sendWelcomeMessage] at hsent
    | some uid =>
        by_cases h0 : uid = 0
        · simp [sendWelcomeMessage, h0] at hsent
        · cases hd : dedupHit (Cache.get c (welcomeKey uid)) now WELCOME_WINDOW_MS
          · have hd2 := dedupHit_mono (Cache.get c (welcomeKey uid)) now now2
              WELCOME_WINDOW_MS hle hd
            cases net2 with
            | ok => simp [sendWelcomeMessage, h0, hd2]
            | err d2 m2 =>
                by_cases hb : isBlockedDesc d2 = true
                · simp [sendWelcomeMessage, h0, hd2, hb]
                · simp [sendWelcomeMessage, h0, hd2, hb]
          · simp [sendWelcomeMessage, h0, hd] at hsent
  · intro hsent
    cases orid with
    | none => cases onu <;> simp [sendReferralNotification] at hsent
    | some rid =>
        cases onu with
        | none => simp [sendReferralNotification] at hsent
        | some nu =>
            by_cases h0 : rid = 0
            · simp [sendReferralNotification, h0] at hsent
            · cases hh : Cache.has c (referralKey rid nu.id)
              · cases net2 with
                | ok => simp [sendReferralNotification, h0, hh]
                | err d2 m2 =>
                    by_cases hb : isBlockedDesc d2 = true
                    · simp [sendReferralNotification, h0, hh, hb]
                    · simp [sendReferralNotification, h0, hh, hb]
              · simp [sendReferralNotification, h0, hh] at hsent

/-- Witness for C10: a welcome request for user 1 and a referral
request for referrer 2 / new user 3 fail with a network error at time
10 against an empty cache; the cache stays empty and retries at time
20 still attempt the send. -/
theorem no_cache_write_on_failed_send_witness :
    (sendWelcomeMessage 10 [] ⟨some 1, none, none, none⟩
        (SendResult.err none "network error")).2.1 = ([] : Cache) ∧
    (sendReferralNotification 10 [] ⟨some 2, some ⟨3, "u"⟩⟩
        (SendResult.err none "network error")).2.1 = ([] : Cache) ∧
    (sendWelcomeMessage 20 [] ⟨some 1, none, none, none⟩ SendResult.ok).2.2
      = true ∧
    (sendReferralNotification 20 [] ⟨some 2, some ⟨3, "u"⟩⟩ SendResult.ok).2.2
      = true :=
  ⟨(no_cache_write_on_failed_send 10 20 [] ⟨some 1, none, none, none⟩
      ⟨some 2, some ⟨3, "u"⟩⟩ none "network error" SendResult.ok (by decide)).1,
   (no_cache_write_on_failed_send 10 20 [] ⟨some 1, none, none, none⟩
      ⟨some 2, some ⟨3, "u"⟩⟩ none "network error" SendResult.ok (by decide)).2.1,
   (no_cache_write_on_failed_send 10 20 [] ⟨some 1, none, none, none⟩
      ⟨some 2, some ⟨3, "u"⟩⟩ none "network error" SendResult.ok (by decide)).2.2.1
      (by decide),
   (no_cache_write_on_failed_send 10 20 [] ⟨some 1, none, none, none⟩
      ⟨some 2, some ⟨3, "u"⟩⟩ none "network error" SendResult.ok (by decide)).2.2.2
      (by decide)⟩
